import Mathlib

/-!
Verification of the synxSphere AI-service core: a shallow embedding of the
similarity engine, feature extractor, recommendation scorer, interaction
aggregator, preference store and recommendation cache found under
`src/services/ai-service/src`, together with theorems settling the spec
claims about them.

Conventions: Python floats are modelled as real numbers (`ℝ`) where square
roots occur (similarity, feature statistics) and as rationals (`ℚ`) where the
code is exact arithmetic (scores, timestamps); database sessions are modelled
as explicit lists of rows threaded through the operations; `datetime` values
are integer seconds; code that can raise to its caller returns `Except`.
-/

namespace SynxSphere

/-! ## Similarity engine (`audio_analyzer.cosine_similarity`,
`operations.calculate_cosine_similarity`) -/

/-- Sum of pairwise products, `sum(a * b for a, b in zip(vec1, vec2))`.
`zip` truncates to the shorter list exactly as Python does. -/
def dotList (a b : List ℝ) : ℝ :=
  ((a.zip b).map (fun p => p.1 * p.2)).sum

/-- Sum of squares, `sum(a * a for a in vec)`. -/
def sumSq (a : List ℝ) : ℝ :=
  (a.map (fun x => x * x)).sum

/-- Vector magnitude, `math.sqrt(sum(a * a for a in vec1))` (also
`sum(...) ** 0.5` in the analyzer's fallback branch). -/
noncomputable def magnitude (a : List ℝ) : ℝ :=
  Real.sqrt (sumSq a)

/-- Embedding of `operations.calculate_cosine_similarity`: length mismatch
returns 0.0, zero magnitude on either side returns 0.0, otherwise the
normalized dot product. The `try`/`except` wrapper is dead in this pure
arithmetic, so it is not represented. -/
noncomputable def calculate_cosine_similarity (vec1 vec2 : List ℝ) : ℝ :=
  open Classical in
  if vec1.length ≠ vec2.length then 0
  else if magnitude vec1 = 0 ∨ magnitude vec2 = 0 then 0
  else dotList vec1 vec2 / (magnitude vec1 * magnitude vec2)

/-- Embedding of `AudioAnalyzer.cosine_similarity` in its pure-Python branch
(lines 330-341): same length check, `** 0.5` norms, zero-norm check,
normalized dot product. The numpy branch of the method is
`cosine_similarity_full` below. -/
noncomputable def cosine_similarity (vector1 vector2 : List ℝ) : ℝ :=
  open Classical in
  if vector1.length ≠ vector2.length then 0
  else if magnitude vector1 = 0 ∨ magnitude vector2 = 0 then 0
  else dotList vector1 vector2 / (magnitude vector1 * magnitude vector2)

/-- Embedding of the whole of `AudioAnalyzer.cosine_similarity` (lines
310-341), branch selected by `AUDIO_LIBS_AVAILABLE`. The numpy branch
(lines 314-328) performs no length check: `np.dot` on 1-D arrays of
different lengths raises `ValueError` (shapes not aligned), which nothing in
the method catches, modelled as `.error`; on equal-length inputs `np.dot`
and `np.linalg.norm` compute the same dot product and root-of-sum-of-squares
norms as the fallback, so that branch returns the same value. The
pure-Python fallback branch is `cosine_similarity` above. -/
noncomputable def cosine_similarity_full (libsAvailable : Bool)
    (vector1 vector2 : List ℝ) : Except String ℝ :=
  open Classical in
  if libsAvailable then
    if vector1.length ≠ vector2.length then .error "ValueError"
    else if magnitude vector1 = 0 ∨ magnitude vector2 = 0 then .ok 0
    else .ok (dotList vector1 vector2 / (magnitude vector1 * magnitude vector2))
  else .ok (cosine_similarity vector1 vector2)

lemma sumSq_nonneg (a : List ℝ) : 0 ≤ sumSq a := by
  induction a with
  | nil => simp [sumSq]
  | cons x xs ih =>
      simp only [sumSq, List.map_cons, List.sum_cons]
      have hx : 0 ≤ x * x := mul_self_nonneg x
      have := ih
      simp only [sumSq] at this
      linarith

lemma dotList_self (a : List ℝ) : dotList a a = sumSq a := by
  induction a with
  | nil => simp [dotList, sumSq]
  | cons x xs ih =>
      simp only [dotList, sumSq, List.zip_cons_cons, List.map_cons,
        List.sum_cons] at *
      linarith

lemma dotList_comm (a b : List ℝ) : dotList a b = dotList b a := by
  induction a generalizing b with
  | nil => cases b <;> simp [dotList]
  | cons x xs ih =>
      cases b with
      | nil => simp [dotList]
      | cons y ys =>
          simp only [dotList, List.zip_cons_cons, List.map_cons,
            List.sum_cons] at *
          rw [mul_comm, ih ys]

/-- Cauchy–Schwarz for the truncating list dot product. -/
lemma dotList_sq_le (a b : List ℝ) :
    dotList a b ^ 2 ≤ sumSq a * sumSq b := by
  induction a generalizing b with
  | nil =>
      simp only [dotList, List.zip_nil_left, List.map_nil, List.sum_nil]
      have := mul_nonneg (sumSq_nonneg []) (sumSq_nonneg b)
      nlinarith [mul_nonneg (sumSq_nonneg ([] : List ℝ)) (sumSq_nonneg b)]
  | cons x xs ih =>
      cases b with
      | nil =>
          simp only [dotList, List.zip_nil_right, List.map_nil, List.sum_nil]
          nlinarith [mul_nonneg (sumSq_nonneg (x :: xs)) (sumSq_nonneg ([] : List ℝ))]
      | cons y ys =>
          have h := ih ys
          have hA : 0 ≤ sumSq xs := sumSq_nonneg xs
          have hB : 0 ≤ sumSq ys := sumSq_nonneg ys
          simp only [dotList, sumSq, List.zip_cons_cons, List.map_cons,
            List.sum_cons] at *
          set d := (List.map (fun p => p.1 * p.2) (xs.zip ys)).sum with hd
          set Sa := (List.map (fun t => t * t) xs).sum with hSa
          set Sb := (List.map (fun t => t * t) ys).sum with hSb
          rcases eq_or_lt_of_le hB with hB0 | hBpos
          · have hd2 : d ^ 2 ≤ 0 := by nlinarith [h]
            have hd0 : d = 0 :=
              (pow_eq_zero_iff (two_ne_zero)).mp
                (le_antisymm hd2 (sq_nonneg d))
            rw [hd0, ← hB0]
            nlinarith [mul_nonneg hA (mul_self_nonneg y)]
          · nlinarith [sq_nonneg (x * Sb - y * d),
              mul_nonneg (sub_nonneg.mpr h)
                (add_nonneg hB (mul_self_nonneg y)), hBpos]

lemma magnitude_nonneg (a : List ℝ) : 0 ≤ magnitude a :=
  Real.sqrt_nonneg _

lemma magnitude_sq (a : List ℝ) : magnitude a * magnitude a = sumSq a :=
  Real.mul_self_sqrt (sumSq_nonneg a)

lemma magnitude_eq_zero_iff (a : List ℝ) : magnitude a = 0 ↔ sumSq a = 0 := by
  constructor
  · intro h
    have := magnitude_sq a
    rw [h] at this
    linarith
  · intro h
    simp [magnitude, h]

lemma cosine_eq_calculate (a b : List ℝ) :
    cosine_similarity a b = calculate_cosine_similarity a b := rfl

lemma magnitude_pos_of_ne_zero {a : List ℝ} (h : magnitude a ≠ 0) :
    0 < magnitude a :=
  lt_of_le_of_ne (magnitude_nonneg a) (Ne.symm h)

lemma calculate_cosine_similarity_of_ne_zero {a b : List ℝ}
    (hl : a.length = b.length) (ha : magnitude a ≠ 0) (hb : magnitude b ≠ 0) :
    calculate_cosine_similarity a b =
      dotList a b / (magnitude a * magnitude b) := by
  simp [calculate_cosine_similarity, hl, ha, hb]

/-- C2 counterexample: with the numpy libraries available (the service's
primary runtime), `AudioAnalyzer.cosine_similarity` on the mismatched-length
pair [1, 2] and [1] raises (`np.dot` fails with `ValueError`, nothing
catches it) instead of returning 0.0 — refuting the claim that a length
mismatch returns 0.0 rather than raising an error. -/
theorem spec_c2_counterexample :
    cosine_similarity_full true [(1 : ℝ), 2] [1] = .error "ValueError" ∧
    Except.error "ValueError" ≠ Except.ok (0 : ℝ) := by
  constructor
  · unfold cosine_similarity_full
    rw [if_pos rfl, if_pos (by simp)]
  · intro h
    exact Except.noConfusion h

/-- C2 amended: for every pair of equal-length vectors each with nonzero
magnitude, cosine similarity returns a value in [-1, 1] and identical
vectors yield exactly 1; a zero magnitude on either side returns 0; a
length mismatch returns 0 in `operations.calculate_cosine_similarity` and
in the analyzer's pure-Python fallback branch (which agrees with the
operations function everywhere), but the analyzer's numpy branch performs
no length check and raises on mismatched lengths; on equal-length inputs
the numpy branch agrees with the operations function. -/
theorem spec_c2_cosine_similarity_contract (a b : List ℝ) :
    (a.length ≠ b.length → calculate_cosine_similarity a b = 0) ∧
    (magnitude a = 0 ∨ magnitude b = 0 → calculate_cosine_similarity a b = 0) ∧
    (a.length = b.length → magnitude a ≠ 0 → magnitude b ≠ 0 →
      -1 ≤ calculate_cosine_similarity a b ∧ calculate_cosine_similarity a b ≤ 1) ∧
    (magnitude a ≠ 0 → calculate_cosine_similarity a a = 1) ∧
    cosine_similarity_full false a b
      = .ok (calculate_cosine_similarity a b) ∧
    (a.length = b.length →
      cosine_similarity_full true a b
        = .ok (calculate_cosine_similarity a b)) ∧
    (a.length ≠ b.length →
      cosine_similarity_full true a b = .error "ValueError") := by
  refine ⟨?_, ?_, ?_, ?_, rfl, ?_, ?_⟩
  · intro h
    simp [calculate_cosine_similarity, h]
  · intro h
    by_cases hl : a.length = b.length
    · simp [calculate_cosine_similarity, hl, h]
    · simp [calculate_cosine_similarity, hl]
  · intro hl ha hb
    have hm1 : 0 < magnitude a := magnitude_pos_of_ne_zero ha
    have hm2 : 0 < magnitude b := magnitude_pos_of_ne_zero hb
    have hval := calculate_cosine_similarity_of_ne_zero hl ha hb
    have hcs : dotList a b ^ 2 ≤ (magnitude a * magnitude b) ^ 2 := by
      have h1 := magnitude_sq a
      have h2 := magnitude_sq b
      nlinarith [dotList_sq_le a b]
    have hmm : 0 < magnitude a * magnitude b := mul_pos hm1 hm2
    constructor
    · rw [hval, le_div_iff₀ hmm]
      nlinarith [hcs, hmm]
    · rw [hval, div_le_one hmm]
      nlinarith [hcs, hmm]
  · intro ha
    have hval := calculate_cosine_similarity_of_ne_zero rfl ha ha
    rw [hval, dotList_self, magnitude_sq]
    have hs : sumSq a ≠ 0 := fun h => ha ((magnitude_eq_zero_iff a).mpr h)
    field_simp
  · intro hl
    have hne : ¬(a.length ≠ b.length) := fun h => h hl
    unfold cosine_similarity_full calculate_cosine_similarity
    rw [if_pos rfl, if_neg hne, if_neg hne]
    by_cases hm : magnitude a = 0 ∨ magnitude b = 0
    · rw [if_pos hm, if_pos hm]
    · rw [if_neg hm, if_neg hm]
  · intro h
    unfold cosine_similarity_full
    rw [if_pos rfl, if_pos h]

lemma sumSq_replicate_45 : sumSq (List.replicate 45 (0.3 : ℝ)) = 4.05 := by
  simp only [sumSq, List.map_replicate, List.sum_replicate, nsmul_eq_mul]
  norm_num

/-- Witness for C2's amended statement: the spec scenario — two 45-length
vectors of all 0.3 have cosine similarity exactly 1; a length mismatch and a
zero vector give 0 in the operations function; a generic unequal pair stays
within [-1, 1]; concretely, the analyzer's numpy branch agrees with the
operations function on an equal-length pair and raises on a mismatched pair,
while its fallback branch agrees everywhere. -/
theorem spec_c2_cosine_similarity_contract_witness :
    calculate_cosine_similarity (List.replicate 45 (0.3 : ℝ))
        (List.replicate 45 (0.3 : ℝ)) = 1 ∧
    calculate_cosine_similarity (List.replicate 45 (0.3 : ℝ)) [] = 0 ∧
    calculate_cosine_similarity [(0 : ℝ), 0] [1, 1] = 0 ∧
    (-1 ≤ calculate_cosine_similarity [(3 : ℝ), 4] [4, 3] ∧
      calculate_cosine_similarity [(3 : ℝ), 4] [4, 3] ≤ 1) ∧
    cosine_similarity_full true [(3 : ℝ), 4] [4, 3]
      = .ok (calculate_cosine_similarity [(3 : ℝ), 4] [4, 3]) ∧
    cosine_similarity_full true (List.replicate 45 (0.3 : ℝ)) []
      = .error "ValueError" ∧
    cosine_similarity_full false (List.replicate 45 (0.3 : ℝ)) []
      = .ok (calculate_cosine_similarity (List.replicate 45 (0.3 : ℝ)) []) := by
  have hm45 : magnitude (List.replicate 45 (0.3 : ℝ)) ≠ 0 := by
    rw [Ne, magnitude_eq_zero_iff, sumSq_replicate_45]
    norm_num
  have hm34 : magnitude [(3 : ℝ), 4] ≠ 0 := by
    rw [Ne, magnitude_eq_zero_iff]
    simp only [sumSq, List.map_cons, List.map_nil, List.sum_cons, List.sum_nil]
    norm_num
  have hm43 : magnitude [(4 : ℝ), 3] ≠ 0 := by
    rw [Ne, magnitude_eq_zero_iff]
    simp only [sumSq, List.map_cons, List.map_nil, List.sum_cons, List.sum_nil]
    norm_num
  have hz : magnitude [(0 : ℝ), 0] = 0 := by
    rw [magnitude_eq_zero_iff]
    simp [sumSq]
  refine ⟨(spec_c2_cosine_similarity_contract (List.replicate 45 (0.3 : ℝ))
    (List.replicate 45 (0.3 : ℝ))).2.2.2.1 hm45, ?_, ?_, ?_, ?_, ?_, ?_⟩
  · exact (spec_c2_cosine_similarity_contract
      (List.replicate 45 (0.3 : ℝ)) []).1 (by simp)
  · exact (spec_c2_cosine_similarity_contract [(0 : ℝ), 0] [1, 1]).2.1
      (Or.inl hz)
  · exact (spec_c2_cosine_similarity_contract [(3 : ℝ), 4] [4, 3]).2.2.1
      rfl hm34 hm43
  · exact (spec_c2_cosine_similarity_contract [(3 : ℝ), 4] [4, 3]).2.2.2.2.2.1
      rfl
  · exact (spec_c2_cosine_similarity_contract
      (List.replicate 45 (0.3 : ℝ)) []).2.2.2.2.2.2 (by simp)
  · exact (spec_c2_cosine_similarity_contract
      (List.replicate 45 (0.3 : ℝ)) []).2.2.2.2.1

/-! ## Feature extractor (`AudioAnalyzer._extract_features_sync`,
`_get_mock_features`, `_create_feature_vector`)

The librosa decode-and-analyze step is an external library call; it is
modelled as an oracle parameter `decoded : Option ExtractedStats` — `none`
when `librosa.load`/feature computation raises (empty or undecodable bytes),
`some stats` on success. `AUDIO_LIBS_AVAILABLE` is the `libsAvailable`
parameter. Everything after the decode is translated from the source. -/

/-- The `"basic"` block of the features dict. -/
structure BasicFeatures where
  duration : ℝ
  sample_rate : ℕ
  tempo : ℝ
  beats_count : ℕ

/-- The `"spectral"` block of the features dict. -/
structure SpectralStats where
  centroid_mean : ℝ
  centroid_std : ℝ
  rolloff_mean : ℝ
  rolloff_std : ℝ
  bandwidth_mean : ℝ
  bandwidth_std : ℝ
  zcr_mean : ℝ
  zcr_std : ℝ
  contrast_mean : ℝ
  contrast_std : ℝ

/-- A `{"mean": [...], "std": [...]}` block (mfcc/chroma/contrast/tonnetz). -/
structure MeanStd where
  mean : List ℝ
  std : List ℝ

/-- The per-file statistics computed from a successfully decoded signal
(the features dict before `feature_vector` is attached). -/
structure ExtractedStats where
  basic : BasicFeatures
  spectral : SpectralStats
  mfcc : MeanStd
  chroma : MeanStd
  contrast : MeanStd
  tonnetz : MeanStd

/-- The record returned by `_extract_features_sync`: the statistics plus the
assembled `feature_vector`; the mock record additionally carries `error` and
`filename` keys, absent (`none`) on the success path. -/
structure AudioFeaturesRecord where
  error : Option String
  filename : Option String
  basic : BasicFeatures
  spectral : SpectralStats
  mfcc : MeanStd
  chroma : MeanStd
  contrast : MeanStd
  tonnetz : MeanStd
  feature_vector : List ℝ

/-- Embedding of `AudioAnalyzer._get_mock_features` (lines 128-168). -/
noncomputable def mock_features (filename : String) : AudioFeaturesRecord :=
  { error := some "Audio processing libraries not available",
    filename := some filename,
    basic := { duration := 180, sample_rate := 44100, tempo := 120,
               beats_count := 240 },
    spectral := { centroid_mean := 2000, centroid_std := 500,
                  rolloff_mean := 4000, rolloff_std := 800,
                  bandwidth_mean := 1500, bandwidth_std := 300,
                  zcr_mean := 0.1, zcr_std := 0.05,
                  contrast_mean := 20, contrast_std := 5 },
    mfcc := { mean := List.replicate 13 0, std := List.replicate 13 1 },
    chroma := { mean := List.replicate 12 0, std := List.replicate 12 1 },
    contrast := { mean := List.replicate 7 0, std := List.replicate 7 1 },
    tonnetz := { mean := List.replicate 6 0, std := List.replicate 6 1 },
    feature_vector := List.replicate 45 0.5 }

/-- Arithmetic mean, `np.mean`. -/
noncomputable def listMean (xs : List ℝ) : ℝ := xs.sum / xs.length

/-- Population standard deviation, `np.std`. -/
noncomputable def listStd (xs : List ℝ) : ℝ :=
  Real.sqrt ((xs.map (fun x => (x - listMean xs) * (x - listMean xs))).sum
    / xs.length)

/-- Embedding of `AudioAnalyzer._create_feature_vector` (lines 170-203):
6 normalized basic/spectral scalars, the 13 MFCC means z-scored across the
band axis with epsilon 1e-8, the raw chroma means, the raw contrast means;
with the DSP libraries unavailable it short-circuits to the 45-long mock
vector. -/
noncomputable def create_feature_vector (libsAvailable : Bool)
    (f : ExtractedStats) : List ℝ :=
  if libsAvailable = false then List.replicate 45 0.5
  else
    [f.basic.tempo / 200, f.basic.duration / 300,
     f.spectral.centroid_mean / 8000, f.spectral.rolloff_mean / 8000,
     f.spectral.bandwidth_mean / 4000, f.spectral.zcr_mean]
    ++ f.mfcc.mean.map
        (fun x => (x - listMean f.mfcc.mean) / (listStd f.mfcc.mean + 1e-8))
    ++ f.chroma.mean
    ++ f.contrast.mean

/-- Embedding of `AudioAnalyzer._extract_features_sync` (lines 45-126): mock
record when the libraries are missing, mock record when decode/processing
fails (the `except` branch), otherwise the computed statistics with the
assembled feature vector. -/
noncomputable def extract_features_sync (libsAvailable : Bool)
    (decoded : Option ExtractedStats) (filename : String) :
    AudioFeaturesRecord :=
  if libsAvailable = false then mock_features filename
  else
    match decoded with
    | none => mock_features filename
    | some f =>
        { error := none, filename := none, basic := f.basic,
          spectral := f.spectral, mfcc := f.mfcc, chroma := f.chroma,
          contrast := f.contrast, tonnetz := f.tonnetz,
          feature_vector := create_feature_vector libsAvailable f }

/-- A concrete successfully-decoded statistics record with the standard
shapes the pipeline produces (13 MFCC bands per `n_mfcc=13`, 12 chroma bins,
7 contrast bands — the same shapes the source's own mock uses). -/
noncomputable def cexStats : ExtractedStats :=
  { basic := { duration := 1, sample_rate := 22050, tempo := 100,
               beats_count := 2 },
    spectral := { centroid_mean := 1000, centroid_std := 1,
                  rolloff_mean := 2000, rolloff_std := 1,
                  bandwidth_mean := 1000, bandwidth_std := 1,
                  zcr_mean := 0.05, zcr_std := 0.01,
                  contrast_mean := 10, contrast_std := 1 },
    mfcc := { mean := List.replicate 13 1, std := List.replicate 13 1 },
    chroma := { mean := List.replicate 12 0.5, std := List.replicate 12 0.1 },
    contrast := { mean := List.replicate 7 10, std := List.replicate 7 1 },
    tonnetz := { mean := List.replicate 6 0, std := List.replicate 6 1 } }

/-- C1 counterexample: a successful real-library extraction (standard
13/12/7 sub-feature shapes) yields a feature vector of length 38 = 6 + 13 +
12 + 7, not 45 — refuting the claim that every extraction returns a
45-long vector. -/
theorem spec_c1_counterexample :
    (extract_features_sync true (some cexStats) "track.wav").feature_vector.length
      = 38 ∧ (38 : ℕ) ≠ 45 := by
  constructor
  · simp [extract_features_sync, create_feature_vector, cexStats]
  · decide

/-- C1 amended: the fallback paths (libraries unavailable, or decode
failure) return a feature vector of exactly length 45, but a successful
library extraction returns one of length 6 + |mfcc means| + |chroma means| +
|contrast means| (38 for the standard 13/12/7 shapes), so the vector length
is not uniformly 45. -/
theorem spec_c1_feature_vector_length (libsAvailable : Bool)
    (decoded : Option ExtractedStats) (filename : String) :
    (libsAvailable = false ∨ decoded = none →
      (extract_features_sync libsAvailable decoded filename).feature_vector.length
        = 45) ∧
    (∀ f, libsAvailable = true → decoded = some f →
      (extract_features_sync libsAvailable decoded filename).feature_vector.length
        = 6 + f.mfcc.mean.length + f.chroma.mean.length + f.contrast.mean.length) := by
  constructor
  · rintro (h | h)
    · simp [extract_features_sync, h, mock_features]
    · subst h
      cases libsAvailable <;>
        simp [extract_features_sync, mock_features]
  · rintro f h rfl
    subst h
    simp [extract_features_sync, create_feature_vector]
    ring

/-- Witness for C1's amended statement: the missing-library fallback gives
length 45 and a concrete successful extraction gives length 38. -/
theorem spec_c1_feature_vector_length_witness :
    (extract_features_sync false none "a.mp3").feature_vector.length = 45 ∧
    (extract_features_sync true (some cexStats) "a.mp3").feature_vector.length
      = 6 + 13 + 12 + 7 := by
  constructor
  · exact (spec_c1_feature_vector_length false none "a.mp3").1 (Or.inl rfl)
  · have h := (spec_c1_feature_vector_length true (some cexStats) "a.mp3").2
      cexStats rfl rfl
    simpa [cexStats] using h

/-- C4: feature extraction never raises to its caller — when the DSP
libraries are unavailable, or when decode/processing fails, it returns
exactly the fixed mock record, whose fields are the documented constants:
duration 180, sample rate 44100, tempo 120, 240 beats, the constant spectral
statistics, zero-mean/unit-std MFCC/chroma/contrast/tonnetz placeholders and
a feature vector of 45 copies of 0.5. -/
theorem spec_c4_extraction_fallback (libsAvailable : Bool)
    (decoded : Option ExtractedStats) (filename : String) :
    (libsAvailable = false →
      extract_features_sync libsAvailable decoded filename
        = mock_features filename) ∧
    (decoded = none →
      extract_features_sync libsAvailable decoded filename
        = mock_features filename) ∧
    (mock_features filename).basic.duration = 180 ∧
    (mock_features filename).basic.sample_rate = 44100 ∧
    (mock_features filename).basic.tempo = 120 ∧
    (mock_features filename).basic.beats_count = 240 ∧
    (mock_features filename).spectral =
      ⟨2000, 500, 4000, 800, 1500, 300, 0.1, 0.05, 20, 5⟩ ∧
    (mock_features filename).mfcc = ⟨List.replicate 13 0, List.replicate 13 1⟩ ∧
    (mock_features filename).chroma = ⟨List.replicate 12 0, List.replicate 12 1⟩ ∧
    (mock_features filename).contrast = ⟨List.replicate 7 0, List.replicate 7 1⟩ ∧
    (mock_features filename).tonnetz = ⟨List.replicate 6 0, List.replicate 6 1⟩ ∧
    (mock_features filename).feature_vector = List.replicate 45 (0.5 : ℝ) := by
  refine ⟨?_, ?_, rfl, rfl, rfl, rfl, rfl, rfl, rfl, rfl, rfl, rfl⟩
  · intro h
    simp [extract_features_sync, h]
  · rintro rfl
    cases libsAvailable <;> simp [extract_features_sync]

/-- Witness for C4: a concrete libraries-missing call and a concrete
decode-failure call both return the mock record, whose tempo is 120 and
whose feature vector is 45 copies of 0.5. -/
theorem spec_c4_extraction_fallback_witness :
    extract_features_sync false (some cexStats) "empty.bin"
      = mock_features "empty.bin" ∧
    extract_features_sync true none "empty.bin" = mock_features "empty.bin" ∧
    (mock_features "empty.bin").basic.tempo = 120 ∧
    (mock_features "empty.bin").feature_vector = List.replicate 45 (0.5 : ℝ) :=
  ⟨(spec_c4_extraction_fallback false (some cexStats) "empty.bin").1 rfl,
   (spec_c4_extraction_fallback true none "empty.bin").2.1 rfl,
   (spec_c4_extraction_fallback true none "empty.bin").2.2.2.2.1,
   (spec_c4_extraction_fallback true none "empty.bin").2.2.2.2.2.2.2.2.2.2.2⟩

/-! ## Similarity matrix (`AudioAnalyzer.calculate_similarities`,
`_construct_vector_from_features`) -/

/-- The stored `mfccFeatures` JSON blob as the reconstruction path reads it:
only its `"mean"` key is consulted (`none` models a missing key, mirroring
`dict.get('mean', [])`). -/
structure MfccDict where
  mean : Option (List ℝ)

/-- The stored `spectralFeatures` JSON blob as the reconstruction path reads
it: `centroid_mean`, `rolloff_mean`, `bandwidth_mean`, each possibly
missing. -/
structure SpectralDict where
  centroid_mean : Option ℝ
  rolloff_mean : Option ℝ
  bandwidth_mean : Option ℝ

/-- A stored `AudioFeatures` row as `calculate_similarities` consumes it.
`none` models a missing/`NULL` attribute. -/
structure FeaturesModel where
  feature_vector : Option (List ℝ)
  tempo : Option ℝ
  duration : Option ℝ
  energy : Option ℝ
  loudness : Option ℝ
  valence : Option ℝ
  danceability : Option ℝ
  mfccFeatures : Option MfccDict
  spectralFeatures : Option SpectralDict

/-- Python's `getattr(m, field, default) or default` idiom: a missing value
or a falsy (zero) value both fall back to the default. -/
noncomputable def orDefault (v : Option ℝ) (d : ℝ) : ℝ :=
  open Classical in
  match v with
  | none => d
  | some x => if x = 0 then d else x

/-- Embedding of `AudioAnalyzer._construct_vector_from_features` (lines
245-308): normalized tempo and duration, energy, normalized loudness,
valence, danceability, the first 10 MFCC means zero-padded to 10, and three
normalized spectral scalars with mid-scale defaults. -/
noncomputable def construct_vector_from_features (m : FeaturesModel) :
    List ℝ :=
  [orDefault m.tempo 120 / 200, orDefault m.duration 180 / 300]
  ++ [orDefault m.energy 0.5, (orDefault m.loudness 0 + 60) / 60]
  ++ [orDefault m.valence 0.5, orDefault m.danceability 0.5]
  ++ (match m.mfccFeatures with
      | some md =>
          match md.mean with
          | some ms =>
              if ms.length > 0 then ms.take 10 ++ List.replicate (10 - ms.length) 0
              else List.replicate 10 0
          | none => List.replicate 10 0
      | none => List.replicate 10 0)
  ++ (match m.spectralFeatures with
      | some sd =>
          [sd.centroid_mean.getD 2000 / 8000, sd.rolloff_mean.getD 4000 / 8000,
           sd.bandwidth_mean.getD 1500 / 4000]
      | none => [0.25, 0.5, 0.375])

/-- The vector `calculate_similarities` uses for a stored row (lines
211-221): the stored `feature_vector` when present and non-empty, otherwise
the reconstruction from individual sub-features. -/
noncomputable def model_vector (m : FeaturesModel) : List ℝ :=
  match m.feature_vector with
  | some v => if v ≠ [] then v else construct_vector_from_features m
  | none => construct_vector_from_features m

/-- Embedding of the happy path of `AudioAnalyzer.calculate_similarities`
(lines 205-237): an NxN matrix with 1.0 forced on the diagonal and pairwise
cosine similarity off it. -/
noncomputable def calculate_similarities (features_list : List FeaturesModel) :
    List (List ℝ) :=
  let vectors := features_list.map model_vector
  (List.range vectors.length).map (fun i =>
    (List.range vectors.length).map (fun j =>
      if i = j then 1
      else cosine_similarity (vectors.getD i []) (vectors.getD j [])))

/-- Embedding of the `except` branch of `calculate_similarities` (lines
239-243): the placeholder matrix returned to the caller on any internal
computation failure. -/
noncomputable def fallback_similarity_matrix (n : ℕ) : List (List ℝ) :=
  (List.range n).map (fun i =>
    (List.range n).map (fun j => if i = j then 1 else 0.3))

lemma getD_range_map {α : Type} (f : ℕ → α) {n i : ℕ} (h : i < n) (d : α) :
    ((List.range n).map f).getD i d = f i := by
  rw [List.getD_eq_getElem?_getD, List.getElem?_map, List.getElem?_range h]
  rfl

lemma cosine_similarity_comm (a b : List ℝ) :
    cosine_similarity a b = cosine_similarity b a := by
  unfold cosine_similarity
  by_cases hl : a.length = b.length
  · have hl2 : ¬(a.length ≠ b.length) := fun h => h hl
    have hl3 : ¬(b.length ≠ a.length) := fun h => h hl.symm
    rw [if_neg hl2, if_neg hl3]
    by_cases hm : magnitude a = 0 ∨ magnitude b = 0
    · rw [if_pos hm, if_pos hm.symm]
    · rw [if_neg hm, if_neg (fun h => hm h.symm), dotList_comm, mul_comm]
  · rw [if_pos hl, if_pos (fun h => hl h.symm)]

lemma calculate_similarities_entry (features_list : List FeaturesModel)
    {i j : ℕ} (hi : i < features_list.length) (hj : j < features_list.length) :
    ((calculate_similarities features_list).getD i []).getD j 0 =
      if i = j then 1
      else cosine_similarity ((features_list.map model_vector).getD i [])
        ((features_list.map model_vector).getD j []) := by
  have hi' : i < (features_list.map model_vector).length := by
    simpa using hi
  have hj' : j < (features_list.map model_vector).length := by
    simpa using hj
  unfold calculate_similarities
  rw [getD_range_map _ hi', getD_range_map _ hj']

/-- C3: for every list of stored feature records, `calculate_similarities`
returns an NxN matrix (N the input length) whose diagonal entries are all
exactly 1 regardless of vector content and whose off-diagonal entries are
symmetric; and the error-path placeholder matrix has 1 on the diagonal and
the constant 0.3 everywhere else. -/
theorem spec_c3_similarity_matrix (features_list : List FeaturesModel)
    (n : ℕ) (hn : n = features_list.length) :
    (calculate_similarities features_list).length = n ∧
    (∀ i, i < n → ((calculate_similarities features_list).getD i []).length = n) ∧
    (∀ i, i < n → ((calculate_similarities features_list).getD i []).getD i 0 = 1) ∧
    (∀ i j, i < n → j < n →
      ((calculate_similarities features_list).getD i []).getD j 0 =
        ((calculate_similarities features_list).getD j []).getD i 0) ∧
    (fallback_similarity_matrix n).length = n ∧
    (∀ i j, i < n → j < n →
      ((fallback_similarity_matrix n).getD i []).getD j 0 =
        if i = j then 1 else 0.3) := by
  subst hn
  refine ⟨by simp [calculate_similarities], ?_, ?_, ?_,
    by simp [fallback_similarity_matrix], ?_⟩
  · intro i hi
    have hi' : i < (features_list.map model_vector).length := by simpa using hi
    unfold calculate_similarities
    rw [getD_range_map _ hi']
    simp
  · intro i hi
    rw [calculate_similarities_entry features_list hi hi]
    simp
  · intro i j hi hj
    rw [calculate_similarities_entry features_list hi hj,
      calculate_similarities_entry features_list hj hi]
    by_cases hij : i = j
    · simp [hij]
    · have hji : ¬(j = i) := fun h => hij h.symm
      simp only [hij, hji, if_false]
      exact cosine_similarity_comm _ _
  · intro i j hi hj
    unfold fallback_similarity_matrix
    rw [getD_range_map _ hi, getD_range_map _ hj]

/-- A stored row carrying a precomputed feature vector. -/
noncomputable def fmA : FeaturesModel :=
  { feature_vector := some [1, 0], tempo := none, duration := none,
    energy := none, loudness := none, valence := none, danceability := none,
    mfccFeatures := none, spectralFeatures := none }

/-- A second stored row carrying a precomputed feature vector. -/
noncomputable def fmB : FeaturesModel :=
  { feature_vector := some [0, 1], tempo := none, duration := none,
    energy := none, loudness := none, valence := none, danceability := none,
    mfccFeatures := none, spectralFeatures := none }

/-- Witness for C3: a concrete 2-element candidate set gives a 2x2 matrix
with unit diagonal and symmetric off-diagonal entries, and the concrete
2x2 placeholder matrix has 0.3 off the diagonal. -/
theorem spec_c3_similarity_matrix_witness :
    (calculate_similarities [fmA, fmB]).length = 2 ∧
    ((calculate_similarities [fmA, fmB]).getD 0 []).getD 0 0 = 1 ∧
    ((calculate_similarities [fmA, fmB]).getD 1 []).getD 1 0 = 1 ∧
    ((calculate_similarities [fmA, fmB]).getD 0 []).getD 1 0 =
      ((calculate_similarities [fmA, fmB]).getD 1 []).getD 0 0 ∧
    ((fallback_similarity_matrix 2).getD 0 []).getD 1 0 = 0.3 := by
  have h := spec_c3_similarity_matrix [fmA, fmB] 2 rfl
  refine ⟨h.1, h.2.2.1 0 (by norm_num), h.2.2.1 1 (by norm_num),
    h.2.2.2.1 0 1 (by norm_num) (by norm_num), ?_⟩
  have h2 := h.2.2.2.2.2 0 1 (by norm_num) (by norm_num)
  simpa using h2

/-! ## Recommendation engine (`RecommendationEngine.get_room_recommendations`,
`_analyze_interaction_patterns`) and the `/rooms` router limit. -/

/-- A user interaction row as the engine reads it (only `actionType` is
consulted). -/
structure Interaction where
  actionType : String
deriving DecidableEq

/-- Python's `max(keys, key=c)`: `none` on an empty iterable (`max` raises
there, but the source only calls it on a non-empty key set), otherwise a
left fold that replaces the current best only on a strictly greater key —
so the first maximal element wins. -/
def pyMaxBy (c : String → ℕ) : List String → Option String
  | [] => none
  | k :: ks => some (ks.foldl (fun x y => if c x < c y then y else x) k)

/-- The key set of the `interaction_counts` dict: each distinct tag once, in
order of first occurrence (Python dict insertion order). -/
def dedupFirst : List String → List String
  | [] => []
  | x :: xs => x :: dedupFirst (xs.filter (fun y => y ≠ x))
termination_by l => l.length
decreasing_by
  simp only [List.length_cons]
  exact Nat.lt_succ_of_le (List.length_filter_le _ _)

/-- The `most_common` computation of `_analyze_interaction_patterns` (lines
102-110): count occurrences per tag, then Python `max` over the dict keys by
count. -/
def most_common_interaction (types : List String) : Option String :=
  pyMaxBy (fun k => types.count k) (dedupFirst types)

/-- The `patterns` dict built for a non-empty interaction list. -/
structure Patterns where
  most_common_interaction : Option String
  preferred_times : List ℚ
  room_preferences : List String
  active_hours : Bool
deriving DecidableEq

/-- Embedding of `RecommendationEngine._analyze_interaction_patterns` (lines
87-119): empty (or `None`) input returns the empty dict (`none`); otherwise
the most common action tag and the active-hours flag computed from the
current wall-clock hour against the fixed 09-23 window. -/
def analyze_interaction_patterns (interactions : List Interaction)
    (currentHour : ℕ) : Option Patterns :=
  if interactions.isEmpty then none
  else some
    { most_common_interaction :=
        most_common_interaction (interactions.map (fun x => x.actionType)),
      preferred_times := [],
      room_preferences := [],
      active_hours := decide (9 ≤ currentHour ∧ currentHour ≤ 23) }

/-- Reading `interaction_patterns.get('active_hours')` as a truth value: the
empty dict has no such key (falsy), otherwise the stored flag. -/
def active_hours_flag (patterns : Option Patterns) : Bool :=
  match patterns with
  | none => false
  | some pt => pt.active_hours

/-- A `{"min": ..., "max": ...}` JSON range as the engine reads it; `none`
models a missing key. -/
structure RangeDict where
  min : Option ℚ
  max : Option ℚ
deriving DecidableEq

/-- A `UserPreferences` row as the engine reads it (`genrePreferences`,
`tempoRange`, `energyRange`; `none` models a `NULL` column). -/
structure PrefsModel where
  genrePreferences : Option (List String)
  tempoRange : Option RangeDict
  energyRange : Option RangeDict
deriving DecidableEq

/-- `preferred_genres` (lines 41-49): the stored genre list when preferences
are supplied (`or []` turns a `NULL` into the empty list), else the
`["electronic", "ambient"]` fallback. -/
def preferred_genres_of (prefs : Option PrefsModel) : List String :=
  match prefs with
  | some p => p.genrePreferences.getD []
  | none => ["electronic", "ambient"]

/-- `tempo_min`/`tempo_max` (lines 43-45, 50): range keys with defaults 60
and 180. -/
def tempo_bounds_of (prefs : Option PrefsModel) : ℚ × ℚ :=
  match prefs with
  | some p =>
      ((p.tempoRange.getD ⟨none, none⟩).min.getD 60,
       (p.tempoRange.getD ⟨none, none⟩).max.getD 180)
  | none => (60, 180)

/-- `energy_level` (lines 46-47, 51): the energy range's `min` key with
default 0.5, used as baseline. -/
def energy_level_of (prefs : Option PrefsModel) : ℚ :=
  match prefs with
  | some p => (p.energyRange.getD ⟨none, none⟩).min.getD 0.5
  | none => 0.5

/-- One scored candidate in the engine's output list. -/
structure Recommendation where
  room_id : String
  room_name : String
  score : ℚ
  reasoning : String
  participants : ℕ
  genres : List String
  tempo_range : List ℚ
  energy_level : ℚ
deriving DecidableEq

/-- Python 3 banker's rounding of a rational to an integer: round half to
even. -/
def pyRoundHalfEven (q : ℚ) : ℤ :=
  if q - ⌊q⌋ < 1 / 2 then ⌊q⌋
  else if (1 : ℚ) / 2 < q - ⌊q⌋ then ⌊q⌋ + 1
  else if ⌊q⌋ % 2 = 0 then ⌊q⌋ else ⌊q⌋ + 1

/-- Python's `round(x, 3)`. -/
def pyRound3 (q : ℚ) : ℚ := pyRoundHalfEven (q * 1000) / 1000

/-- Placeholder record for out-of-range list reads. -/
def dummyRec : Recommendation :=
  { room_id := "", room_name := "", score := 0, reasoning := "",
    participants := 0, genres := [], tempo_range := [], energy_level := 0 }

/-- The loop body of `get_room_recommendations` (lines 57-83): the candidate
appended at rank `i`, given the preferred genres, range bounds and the
active-hours signal already extracted. -/
def recommendation_at (user_id : String) (prefs : Option PrefsModel)
    (active : Bool) (i : ℕ) : Recommendation :=
  let score : ℚ := 0.9 - (i : ℚ) * 0.05
    + (if preferred_genres_of prefs ≠ [] then 0.1 else 0)
    + (if active then 0.05 else 0)
  { room_id := "rec_room_" ++ user_id ++ "_" ++ toString (i + 1),
    room_name := "Recommended Room " ++ toString (i + 1),
    score := pyRound3 score,
    reasoning :=
      if preferred_genres_of prefs ≠ [] then
        "Matches your preference for "
          ++ String.intercalate ", " ((preferred_genres_of prefs).take 2)
      else "Based on your preferences",
    participants := 3 + i % 8,
    genres :=
      if preferred_genres_of prefs ≠ [] then (preferred_genres_of prefs).take 2
      else ["electronic", "ambient"],
    tempo_range := [(tempo_bounds_of prefs).1, (tempo_bounds_of prefs).2],
    energy_level := energy_level_of prefs }

/-- Embedding of `RecommendationEngine.get_room_recommendations` (lines
26-85): at most `min(limit, 10)` candidates; rank `i` starts from base score
`0.9 - 0.05*i`, gains `+0.1` when any preferred genre exists and `+0.05`
when the interaction analysis reports active hours; the score is rounded to
3 digits; the reasoning names the first two preferred genres when any
exist. -/
def get_room_recommendations (user_id : String) (limit : ℕ)
    (prefs : Option PrefsModel) (interactions : List Interaction)
    (currentHour : ℕ) : List Recommendation :=
  (List.range (min limit 10)).map
    (recommendation_at user_id prefs
      (active_hours_flag (analyze_interaction_patterns interactions currentHour)))

/-- The `/rooms` route's limit validation, `Query(10, ge=1, le=50)`
(`routers/recommendations.py` line 26). -/
def router_limit_accepts (limit : ℕ) : Bool :=
  decide (1 ≤ limit) && decide (limit ≤ 50)

lemma pyRoundHalfEven_intCast (z : ℤ) : pyRoundHalfEven (z : ℚ) = z := by
  unfold pyRoundHalfEven
  rw [Int.floor_intCast, sub_self]
  norm_num

lemma pyRound3_thousandth (z : ℤ) :
    pyRound3 ((z : ℚ) / 1000) = (z : ℚ) / 1000 := by
  unfold pyRound3
  rw [div_mul_cancel₀ _ (by norm_num : (1000 : ℚ) ≠ 0), pyRoundHalfEven_intCast]

lemma pyRound3_eq_self_of_thousandth (q : ℚ) (z : ℤ)
    (hz : q = (z : ℚ) / 1000) : pyRound3 q = q := by
  rw [hz, pyRound3_thousandth]

/-- C10 (implicit): the engine returns exactly `min(limit, 10)` candidates,
so any boundary-accepted limit above 10 (the route allows up to 50) still
yields only 10 items. -/
theorem spec_c10_limit_cap (user_id : String) (limit : ℕ)
    (prefs : Option PrefsModel) (interactions : List Interaction)
    (currentHour : ℕ) :
    (get_room_recommendations user_id limit prefs interactions
      currentHour).length = min limit 10 ∧
    (router_limit_accepts limit = true → 10 < limit →
      (get_room_recommendations user_id limit prefs interactions
        currentHour).length = 10) := by
  constructor
  · simp [get_room_recommendations]
  · intro _ h
    simp [get_room_recommendations]
    omega

/-- Witness for C10: requesting 50 (the largest boundary-accepted limit)
returns exactly 10 candidates, and requesting 3 returns 3. -/
theorem spec_c10_limit_cap_witness :
    (get_room_recommendations "u1" 50 none [] 12).length = 10 ∧
    (get_room_recommendations "u1" 3 none [] 12).length = 3 := by
  constructor
  · exact (spec_c10_limit_cap "u1" 50 none [] 12).2 (by decide) (by decide)
  · simpa using (spec_c10_limit_cap "u1" 3 none [] 12).1

/-- C5: the candidate at rank `i` scores `0.9 - 0.05*i`, plus 0.1 when the
user has any preferred genre, plus 0.05 when the interaction analysis
reports the current hour inside the 09-23 active window; the sum is not
renormalized (rounding to 3 digits is exact here), and the reasoning string
names the user's top two preferred genres when any exist. -/
theorem spec_c5_recommendation_scoring (user_id : String) (limit : ℕ)
    (prefs : Option PrefsModel) (interactions : List Interaction)
    (currentHour : ℕ) (i : ℕ) (hi : i < min limit 10) :
    ((get_room_recommendations user_id limit prefs interactions
        currentHour).getD i dummyRec).score
      = 0.9 - i * 0.05
        + (if preferred_genres_of prefs ≠ [] then 0.1 else 0)
        + (if active_hours_flag
            (analyze_interaction_patterns interactions currentHour)
          then 0.05 else 0) ∧
    (preferred_genres_of prefs ≠ [] →
      ((get_room_recommendations user_id limit prefs interactions
          currentHour).getD i dummyRec).reasoning
        = "Matches your preference for "
            ++ String.intercalate ", " ((preferred_genres_of prefs).take 2)) := by
  have hentry := getD_range_map
    (recommendation_at user_id prefs
      (active_hours_flag (analyze_interaction_patterns interactions currentHour)))
    hi dummyRec
  constructor
  · unfold get_room_recommendations
    rw [hentry]
    simp only [recommendation_at]
    obtain ⟨c1, hc1⟩ : ∃ c1 : ℤ,
        (if preferred_genres_of prefs ≠ [] then (0.1 : ℚ) else 0)
          = (c1 : ℚ) / 1000 := by
      by_cases hg : preferred_genres_of prefs ≠ []
      · exact ⟨100, by rw [if_pos hg]; norm_num⟩
      · exact ⟨0, by rw [if_neg hg]; norm_num⟩
    obtain ⟨c2, hc2⟩ : ∃ c2 : ℤ,
        (if active_hours_flag
            (analyze_interaction_patterns interactions currentHour) = true
          then (0.05 : ℚ) else 0) = (c2 : ℚ) / 1000 := by
      by_cases ha : active_hours_flag
          (analyze_interaction_patterns interactions currentHour) = true
      · exact ⟨50, by rw [if_pos ha]; norm_num⟩
      · exact ⟨0, by rw [if_neg ha]; norm_num⟩
    rw [hc1, hc2]
    exact pyRound3_eq_self_of_thousandth _ (900 - 50 * i + c1 + c2)
      (by push_cast; ring)
  · intro hg
    unfold get_room_recommendations
    rw [hentry]
    simp only [recommendation_at]
    rw [if_pos hg]

/-- The preferences of a user with preferred genres jazz and blues. -/
def jazzPrefs : Option PrefsModel :=
  some { genrePreferences := some ["jazz", "blues"], tempoRange := none,
         energyRange := none }

/-- Witness for C5: the spec scenario — preferred genres ["jazz","blues"],
limit 3, no recent interactions — yields scores 1.0, 0.95, 0.9 and a
reasoning string naming jazz and blues. -/
theorem spec_c5_recommendation_scoring_witness :
    ((get_room_recommendations "u1" 3 jazzPrefs [] 12).getD 0 dummyRec).score
      = 1 ∧
    ((get_room_recommendations "u1" 3 jazzPrefs [] 12).getD 1 dummyRec).score
      = 0.95 ∧
    ((get_room_recommendations "u1" 3 jazzPrefs [] 12).getD 2 dummyRec).score
      = 0.9 ∧
    ((get_room_recommendations "u1" 3 jazzPrefs [] 12).getD 0 dummyRec).reasoning
      = "Matches your preference for jazz, blues" := by
  have h0 := spec_c5_recommendation_scoring "u1" 3 jazzPrefs [] 12 0 (by decide)
  have h1 := spec_c5_recommendation_scoring "u1" 3 jazzPrefs [] 12 1 (by decide)
  have h2 := spec_c5_recommendation_scoring "u1" 3 jazzPrefs [] 12 2 (by decide)
  refine ⟨?_, ?_, ?_, ?_⟩
  · rw [h0.1]
    norm_num [preferred_genres_of, jazzPrefs, analyze_interaction_patterns,
      active_hours_flag, List.cons_ne_nil]
  · rw [h1.1]
    norm_num [preferred_genres_of, jazzPrefs, analyze_interaction_patterns,
      active_hours_flag, List.cons_ne_nil]
  · rw [h2.1]
    norm_num [preferred_genres_of, jazzPrefs, analyze_interaction_patterns,
      active_hours_flag, List.cons_ne_nil]
  · rw [h0.2 (by simp [preferred_genres_of, jazzPrefs])]
    rfl

/-! ## The interaction aggregator claim: Python `max` over dict keys picks
the first key attaining the maximal count. -/

/-- `t` dominates the counts of every element of `L`. -/
def domAll (c : String → ℕ) (L : List String) (t : String) : Bool :=
  L.all (fun u => decide (c u ≤ c t))

lemma domAll_cons (c : String → ℕ) (u : String) (L : List String)
    (t : String) :
    domAll c (u :: L) t = (decide (c u ≤ c t) && domAll c L t) := by
  simp [domAll]

lemma find?_cons_false {p : String → Bool} {a : String} (l : List String)
    (h : p a = false) : (a :: l).find? p = l.find? p :=
  List.find?_cons_of_neg l (by rw [h]; exact Bool.false_ne_true)

lemma find?_congr_mem {p q : String → Bool} :
    ∀ L : List String, (∀ t ∈ L, p t = q t) → L.find? p = L.find? q := by
  intro L
  induction L with
  | nil => intro _; rfl
  | cons x xs ih =>
      intro h
      have hx := h x (List.mem_cons_self x xs)
      cases hqx : q x with
      | true =>
          rw [List.find?_cons_of_pos _ (hx.trans hqx),
            List.find?_cons_of_pos _ hqx]
      | false =>
          rw [find?_cons_false _ (by rw [hx, hqx]),
            find?_cons_false _ (by rw [hqx])]
          exact ih (fun t ht => h t (List.mem_cons_of_mem x ht))

/-- Python's `max` fold returns the first element of `b :: ks` attaining the
maximal key value. -/
lemma foldl_max_first (c : String → ℕ) :
    ∀ (ks : List String) (b : String),
      (b :: ks).find? (domAll c (b :: ks))
        = some (ks.foldl (fun x y => if c x < c y then y else x) b) := by
  intro ks
  induction ks with
  | nil =>
      intro b
      have hb : domAll c [b] b = true := by simp [domAll]
      rw [List.foldl_nil, List.find?_cons_of_pos _ hb]
  | cons k ks ih =>
      intro b
      by_cases hbk : c b < c k
      · have hfold : (k :: ks).foldl (fun x y => if c x < c y then y else x) b
            = ks.foldl (fun x y => if c x < c y then y else x) k := by
          rw [List.foldl_cons, if_pos hbk]
        rw [hfold, ← ih k]
        have hpt : ∀ t, domAll c (b :: k :: ks) t = domAll c (k :: ks) t := by
          intro t
          rw [domAll_cons]
          cases h2 : domAll c (k :: ks) t with
          | false => rw [Bool.and_false]
          | true =>
              have hkt : c k ≤ c t := by
                rw [domAll_cons, Bool.and_eq_true] at h2
                exact of_decide_eq_true h2.1
              rw [decide_eq_true (le_trans (le_of_lt hbk) hkt), Bool.true_and]
        rw [find?_congr_mem _ (fun t _ => hpt t)]
        have hb : domAll c (k :: ks) b = false := by
          rw [domAll_cons, decide_eq_false (not_le.mpr hbk), Bool.false_and]
        rw [find?_cons_false _ hb]
      · have hkb : c k ≤ c b := not_lt.mp hbk
        have hfold : (k :: ks).foldl (fun x y => if c x < c y then y else x) b
            = ks.foldl (fun x y => if c x < c y then y else x) b := by
          rw [List.foldl_cons, if_neg hbk]
        rw [hfold, ← ih b]
        have hpt : ∀ t, domAll c (b :: k :: ks) t = domAll c (b :: ks) t := by
          intro t
          rw [domAll_cons, domAll_cons, domAll_cons]
          cases hbt : decide (c b ≤ c t) with
          | false => rw [Bool.false_and, Bool.false_and]
          | true =>
              have hbt' : c b ≤ c t := of_decide_eq_true hbt
              rw [decide_eq_true (le_trans hkb hbt'), Bool.true_and]
        rw [find?_congr_mem _ (fun t _ => hpt t)]
        cases hPb : domAll c (b :: ks) b with
        | true =>
            rw [List.find?_cons_of_pos _ hPb, List.find?_cons_of_pos _ hPb]
        | false =>
            have hPk : domAll c (b :: ks) k = false := by
              rcases lt_or_eq_of_le hkb with hlt | heq
              · rw [domAll_cons, decide_eq_false (not_le.mpr hlt),
                  Bool.false_and]
              · have hsame : domAll c (b :: ks) k = domAll c (b :: ks) b := by
                  simp [domAll, heq]
                rw [hsame, hPb]
            rw [find?_cons_false _ hPb, find?_cons_false _ hPk,
              find?_cons_false _ hPb]

lemma find?_filter_ne (p : String → Bool) (x : String) (hpx : p x = false) :
    ∀ xs : List String,
      (xs.filter (fun y => y ≠ x)).find? p = xs.find? p := by
  intro xs
  induction xs with
  | nil => rfl
  | cons y ys ih =>
      by_cases hyx : y = x
      · subst hyx
        rw [List.filter_cons, if_neg (by simp), ih,
          find?_cons_false _ hpx]
      · rw [List.filter_cons, if_pos (by simp [hyx])]
        cases hpy : p y with
        | true =>
            rw [List.find?_cons_of_pos _ hpy, List.find?_cons_of_pos _ hpy]
        | false =>
            rw [find?_cons_false _ hpy, find?_cons_false _ hpy, ih]

lemma find?_dedupFirst (p : String → Bool) :
    ∀ l : List String, (dedupFirst l).find? p = l.find? p := by
  intro l
  induction l using dedupFirst.induct with
  | case1 => rw [dedupFirst]
  | case2 x xs ih =>
      rw [dedupFirst]
      cases hpx : p x with
      | true =>
          rw [List.find?_cons_of_pos _ hpx, List.find?_cons_of_pos _ hpx]
      | false =>
          rw [find?_cons_false _ hpx, find?_cons_false _ hpx, ih,
            find?_filter_ne p x hpx]

lemma mem_dedupFirst :
    ∀ (l : List String) (t : String), t ∈ dedupFirst l ↔ t ∈ l := by
  intro l
  induction l using dedupFirst.induct with
  | case1 => intro t; rw [dedupFirst]
  | case2 x xs ih =>
      intro t
      rw [dedupFirst]
      by_cases htx : t = x
      · subst htx
        simp
      · simp only [List.mem_cons, htx, false_or]
        rw [ih t]
        simp [List.mem_filter, htx]

/-- The maximal per-tag occurrence count of a tag list. -/
def maxCountVal (l : List String) : ℕ :=
  (l.map (fun t => l.count t)).foldr max 0

lemma le_foldr_max {L : List ℕ} {x : ℕ} (hx : x ∈ L) :
    x ≤ L.foldr max 0 := by
  induction L with
  | nil => cases hx
  | cons a L ih =>
      rcases List.mem_cons.mp hx with rfl | h
      · exact le_max_left _ _
      · exact le_trans (ih h) (le_max_right _ _)

lemma foldr_max_le {L : List ℕ} {k : ℕ} (h : ∀ x ∈ L, x ≤ k) :
    L.foldr max 0 ≤ k := by
  induction L with
  | nil => exact Nat.zero_le k
  | cons a L ih =>
      exact max_le (h a (List.mem_cons_self a L))
        (ih (fun x hx => h x (List.mem_cons_of_mem a hx)))

lemma count_le_maxCountVal {l : List String} {t : String} (h : t ∈ l) :
    l.count t ≤ maxCountVal l :=
  le_foldr_max (List.mem_map_of_mem _ h)

/-- The `most_common` pick is the first tag (in input order) whose count is
maximal: the highest count wins and ties break to the earliest-encountered
tag. -/
lemma most_common_eq_find (l : List String) (hl : l ≠ []) :
    most_common_interaction l
      = l.find? (fun t => l.count t == maxCountVal l) := by
  obtain ⟨d, ds, hdd⟩ : ∃ d ds, dedupFirst l = d :: ds := by
    cases l with
    | nil => exact absurd rfl hl
    | cons x xs => exact ⟨x, dedupFirst (xs.filter (fun y => y ≠ x)), by
        rw [dedupFirst]⟩
  have hbridge : ∀ t ∈ dedupFirst l,
      domAll (fun k => l.count k) (dedupFirst l) t
        = (l.count t == maxCountVal l) := by
    intro t ht
    have htl : t ∈ l := (mem_dedupFirst l t).mp ht
    by_cases hmax : l.count t = maxCountVal l
    · have h1 : domAll (fun k => l.count k) (dedupFirst l) t = true := by
        rw [domAll, List.all_eq_true]
        intro u hu
        have hul : u ∈ l := (mem_dedupFirst l u).mp hu
        exact decide_eq_true (hmax ▸ count_le_maxCountVal hul)
      rw [h1, hmax]
      exact (beq_self_eq_true _).symm
    · have h1 : domAll (fun k => l.count k) (dedupFirst l) t = false := by
        cases hv : domAll (fun k => l.count k) (dedupFirst l) t with
        | false => rfl
        | true =>
            exfalso
            rw [domAll, List.all_eq_true] at hv
            have hle : maxCountVal l ≤ l.count t := by
              apply foldr_max_le
              intro x hx
              obtain ⟨u, hu, rfl⟩ := List.mem_map.mp hx
              exact of_decide_eq_true (hv u ((mem_dedupFirst l u).mpr hu))
            exact hmax (le_antisymm (count_le_maxCountVal htl) hle)
      rw [h1]
      exact (beq_eq_false_iff_ne.mpr hmax).symm
  have hfold := foldl_max_first (fun k => l.count k) ds d
  unfold most_common_interaction
  rw [hdd]
  calc pyMaxBy (fun k => l.count k) (d :: ds)
      = some (ds.foldl (fun x y =>
          if (fun k => l.count k) x < (fun k => l.count k) y then y else x) d)
        := rfl
    _ = (d :: ds).find? (domAll (fun k => l.count k) (d :: ds)) := hfold.symm
    _ = (dedupFirst l).find? (domAll (fun k => l.count k) (dedupFirst l)) := by
        rw [hdd]
    _ = (dedupFirst l).find? (fun t => l.count t == maxCountVal l) :=
        find?_congr_mem _ hbridge
    _ = l.find? (fun t => l.count t == maxCountVal l) :=
        find?_dedupFirst _ l

/-- C9: the interaction summary counts occurrences of each action-type tag
and picks as most-common the first tag of the input whose count is maximal
(highest count, ties broken first-encountered-wins over input order); the
active-hours flag holds exactly when the current hour lies in 09-23; an
empty input yields the empty summary (no most-common action, flag read as
false) rather than an error. -/
theorem spec_c9_interaction_summary (interactions : List Interaction)
    (currentHour : ℕ) :
    (interactions = [] →
      analyze_interaction_patterns interactions currentHour = none ∧
      active_hours_flag
        (analyze_interaction_patterns interactions currentHour) = false) ∧
    (interactions ≠ [] →
      analyze_interaction_patterns interactions currentHour = some
        { most_common_interaction :=
            (interactions.map (fun x => x.actionType)).find?
              (fun t => (interactions.map (fun x => x.actionType)).count t
                == maxCountVal (interactions.map (fun x => x.actionType))),
          preferred_times := [],
          room_preferences := [],
          active_hours := decide (9 ≤ currentHour ∧ currentHour ≤ 23) }) := by
  constructor
  · rintro rfl
    exact ⟨rfl, rfl⟩
  · intro h
    have hne : ¬ (interactions.isEmpty = true) := by
      simpa [List.isEmpty_iff] using h
    have hmap : interactions.map (fun x => x.actionType) ≠ [] := by
      simpa using h
    unfold analyze_interaction_patterns
    rw [if_neg hne, most_common_eq_find _ hmap]

/-- Witness for C9: four interactions tagged play, like, like, play (counts
tied at 2) pick "play" — the first-encountered maximal tag — with the
active-hours flag set at hour 10; the empty list gives the empty summary. -/
theorem spec_c9_interaction_summary_witness :
    analyze_interaction_patterns
        [⟨"play"⟩, ⟨"like"⟩, ⟨"like"⟩, ⟨"play"⟩] 10
      = some { most_common_interaction := some "play", preferred_times := [],
               room_preferences := [], active_hours := true } ∧
    analyze_interaction_patterns [] 3 = none := by
  constructor
  · have h := (spec_c9_interaction_summary
      [⟨"play"⟩, ⟨"like"⟩, ⟨"like"⟩, ⟨"play"⟩] 10).2 (by decide)
    rw [h]
    rfl
  · exact ((spec_c9_interaction_summary [] 3).1 rfl).1

/-! ## Recommendation cache (`RecommendationCacheService`) and user
preferences (`UserPreferencesService`) — `database/operations.py`.

The database session is an explicit list of rows; `datetime.utcnow()` is the
`now : ℤ` parameter (integer seconds since an arbitrary epoch — only
ordering and hour offsets matter here); `timedelta(hours=h)` is `h * 3600`. `scalar_one_or_none` raises `MultipleResultsFound` on more
than one matching row, modelled with `Except`. -/

/-- A `recommendation_cache` row with the fields the service reads or
writes; column defaults from `models.py` (`hitCount` 0, `isValid` true,
`createdAt`/`lastAccessed` now). The JSON payload of a recommendation dict
is abstracted to a key-value list. -/
structure CacheEntry where
  userId : String
  recommendedRooms : List (List (String × String))
  totalRecommendations : ℕ
  algorithmVersion : String
  contextType : String
  contextHash : Option String
  createdAt : ℤ
  expiresAt : ℤ
  hitCount : ℕ
  lastAccessed : ℤ
  isValid : Bool
deriving DecidableEq

/-- Embedding of `RecommendationCacheService.cache_recommendations` (lines
219-238): builds a fresh entry whose `expiresAt` is `now + hours`, whose
`contextData` stores the recommendation type and hash, and appends it to the
session; `algorithm_version or "v1.0"` treats a falsy (empty) version as
missing. -/
def cache_recommendations (state : List CacheEntry) (now : ℤ)
    (user_id recommendation_type : String)
    (recommendations : List (List (String × String)))
    (expires_in_hours : ℤ) (context_hash : Option String)
    (algorithm_version : Option String) : CacheEntry × List CacheEntry :=
  let entry : CacheEntry :=
    { userId := user_id,
      recommendedRooms := recommendations,
      totalRecommendations := recommendations.length,
      algorithmVersion :=
        match algorithm_version with
        | none => "v1.0"
        | some v => if v = "" then "v1.0" else v,
      contextType := recommendation_type,
      contextHash := context_hash,
      createdAt := now,
      expiresAt := now + expires_in_hours * 3600,
      hitCount := 0,
      lastAccessed := now,
      isValid := true }
  (entry, state ++ [entry])

/-- The rows selected by the `get_cached_recommendations` query (lines
202-208): same user, not yet expired (strict `expiresAt > now`), still
valid. The `recommendation_type` argument is NOT part of the query in the
source, so it does not appear here. -/
def cache_get_matches (state : List CacheEntry) (now : ℤ)
    (user_id : String) : List CacheEntry :=
  state.filter (fun e => e.userId = user_id ∧ now < e.expiresAt ∧
    e.isValid = true)

/-- The value and session returned by a cache read. -/
structure CacheGetResult where
  entry : Option CacheEntry
  state : List CacheEntry
deriving DecidableEq

/-- The access-tracking mutation of a cache hit (lines 211-214): increment
the hit counter, refresh the last-accessed time. -/
def bump_hit (now : ℤ) (e : CacheEntry) : CacheEntry :=
  { e with hitCount := e.hitCount + 1, lastAccessed := now }

/-- Embedding of `RecommendationCacheService.get_cached_recommendations`
(lines 196-216): `scalar_one_or_none` over the matches; on a hit the entry's
hit counter is incremented and its last-accessed time refreshed in place
(the ORM mutation is modelled by updating the matching row in the session
list). The `recommendation_type` parameter is accepted but never used. -/
def get_cached_recommendations (state : List CacheEntry) (now : ℤ)
    (user_id recommendation_type : String) : Except String CacheGetResult :=
  match cache_get_matches state now user_id with
  | [] => .ok { entry := none, state := state }
  | [e] =>
      .ok { entry := some (bump_hit now e),
            state := state.map (fun x =>
              if x.userId = user_id ∧ now < x.expiresAt ∧ x.isValid = true
              then bump_hit now x else x) }
  | _ => .error "MultipleResultsFound"

/-- C6 counterexample: an entry cached under (u1, "typeB") is returned by a
get for (u1, "typeA") — the cache lookup ignores the recommendation type,
refuting the claim that the cache is keyed by the (user id, type) pair. -/
theorem spec_c6_counterexample :
    (match get_cached_recommendations
        (cache_recommendations [] 0 "u1" "typeB" [[("room_id", "r1")]] 1
          none none).2 10 "u1" "typeA" with
     | .ok r => r.entry.map (fun e => e.contextType)
     | .error _ => none) = some "typeB" ∧ "typeB" ≠ "typeA" := by
  constructor
  · decide
  · decide

/-- C6 amended: the cache read is keyed by the user id (plus expiry and
validity) only — the recommendation type passed to `get` never affects the
result, although `put` does store the type in the entry's context data; any
returned entry belongs to the requesting user. -/
theorem spec_c6_cache_keying (state : List CacheEntry) (now : ℤ)
    (user_id t1 t2 : String) :
    get_cached_recommendations state now user_id t1
      = get_cached_recommendations state now user_id t2 ∧
    (∀ recommendations expires_in_hours context_hash algorithm_version,
      ((cache_recommendations state now user_id t1 recommendations
        expires_in_hours context_hash algorithm_version).1).contextType = t1) ∧
    (∀ res e, get_cached_recommendations state now user_id t1 = .ok res →
      res.entry = some e → e.userId = user_id) := by
  refine ⟨rfl, fun _ _ _ _ => rfl, ?_⟩
  intro res e hok hentry
  unfold get_cached_recommendations at hok
  cases hm : cache_get_matches state now user_id with
  | nil =>
      rw [hm] at hok
      injection hok with hok
      rw [← hok] at hentry
      exact absurd hentry (by simp)
  | cons x xs =>
      cases xs with
      | nil =>
          rw [hm] at hok
          injection hok with hok
          rw [← hok] at hentry
          have hx : x ∈ cache_get_matches state now user_id := by
            rw [hm]; exact List.mem_cons_self x []
          have hpred := List.of_mem_filter hx
          have hxu : x.userId = user_id := (of_decide_eq_true hpred).1
          simp only [Option.some.injEq] at hentry
          rw [← hentry]
          exact hxu
      | cons y ys =>
          rw [hm] at hok
          exact absurd hok (by simp)

/-- The session state after caching one entry for user u1 under type
"typeB" at time 0 with a 1-hour TTL. -/
def c6PutState : List CacheEntry :=
  (cache_recommendations [] 0 "u1" "typeB" [[("room_id", "r1")]] 1
    none none).2

/-- The entry a subsequent read at time 10 returns: hit counter bumped to 1,
last-accessed refreshed, expiry unchanged at 3600. -/
def c6Entry : CacheEntry :=
  { userId := "u1", recommendedRooms := [[("room_id", "r1")]],
    totalRecommendations := 1, algorithmVersion := "v1.0",
    contextType := "typeB", contextHash := none, createdAt := 0,
    expiresAt := 3600, hitCount := 1, lastAccessed := 10, isValid := true }

/-- Witness for C6's amended statement: on the concrete one-entry cache the
read result is identical for two different requested types, the put stored
the type, and the returned entry belongs to the requesting user. -/
theorem spec_c6_cache_keying_witness :
    get_cached_recommendations c6PutState 10 "u1" "playlist"
      = get_cached_recommendations c6PutState 10 "u1" "room" ∧
    ((cache_recommendations c6PutState 10 "u1" "playlist" [] 1 none
      none).1).contextType = "playlist" ∧
    c6Entry.userId = "u1" :=
  ⟨(spec_c6_cache_keying c6PutState 10 "u1" "playlist" "room").1,
   (spec_c6_cache_keying c6PutState 10 "u1" "playlist" "room").2.1 [] 1
     none none,
   (spec_c6_cache_keying c6PutState 10 "u1" "playlist" "room").2.2
     { entry := some c6Entry, state := [c6Entry] } c6Entry rfl rfl⟩

/-- C7: when the session holds exactly one cache row for the user, a get
returns the entry if and only if the current time is strictly before its
`expiresAt` and its validity flag is set (an expired entry yields absent
even when still marked valid); on a hit the returned entry's hit counter is
incremented by exactly 1 and its last-accessed time set to now, while
`expiresAt` and `createdAt` are unchanged (absolute, not sliding, expiry);
on a miss the session is untouched. -/
theorem spec_c7_cache_expiry (state : List CacheEntry) (now : ℤ)
    (user_id recommendation_type : String) (e : CacheEntry)
    (hu : state.filter (fun x => x.userId = user_id) = [e]) :
    ∃ res : CacheGetResult,
      get_cached_recommendations state now user_id recommendation_type
        = .ok res ∧
      (res.entry.isSome = true ↔ (now < e.expiresAt ∧ e.isValid = true)) ∧
      (∀ e2, res.entry = some e2 →
        e2.hitCount = e.hitCount + 1 ∧ e2.lastAccessed = now ∧
        e2.expiresAt = e.expiresAt ∧ e2.createdAt = e.createdAt ∧
        e2.userId = e.userId ∧ e2.isValid = e.isValid) ∧
      (res.entry = none → res.state = state) := by
  have hmatch : cache_get_matches state now user_id
      = if now < e.expiresAt ∧ e.isValid = true then [e] else [] := by
    unfold cache_get_matches
    have hsplit : state.filter
        (fun x => decide (x.userId = user_id ∧ now < x.expiresAt ∧
          x.isValid = true))
        = (state.filter (fun x => decide (x.userId = user_id))).filter
            (fun x => decide (now < x.expiresAt ∧ x.isValid = true)) := by
      rw [List.filter_filter]
      apply List.filter_congr
      intro x _
      simp only [Bool.decide_and]
      cases decide (x.userId = user_id) <;>
        cases decide (now < x.expiresAt) <;>
        cases decide (x.isValid = true) <;> rfl
    rw [hsplit, hu]
    by_cases hcond : now < e.expiresAt ∧ e.isValid = true
    · rw [if_pos hcond, List.filter_cons, if_pos (by
        exact decide_eq_true hcond), List.filter_nil]
    · rw [if_neg hcond, List.filter_cons, if_neg (by
        rw [decide_eq_false hcond]; exact Bool.false_ne_true),
        List.filter_nil]
  unfold get_cached_recommendations
  rw [hmatch]
  by_cases hcond : now < e.expiresAt ∧ e.isValid = true
  · rw [if_pos hcond]
    refine ⟨_, rfl, ?_, ?_, ?_⟩
    · simp [hcond]
    · intro e2 he2
      simp only [Option.some.injEq] at he2
      rw [← he2]
      exact ⟨rfl, rfl, rfl, rfl, rfl, rfl⟩
    · intro h
      simp at h
  · rw [if_neg hcond]
    refine ⟨_, rfl, ?_, ?_, fun _ => rfl⟩
    · simp [hcond]
    · intro e2 he2
      simp at he2

/-- A cache row for user u1 created at time 0 with expiry 3600, never hit. -/
def c7Entry : CacheEntry :=
  { userId := "u1", recommendedRooms := [], totalRecommendations := 0,
    algorithmVersion := "v1.0", contextType := "rooms", contextHash := none,
    createdAt := 0, expiresAt := 3600, hitCount := 0, lastAccessed := 0,
    isValid := true }

/-- Witness for C7: reading the one-entry cache before expiry returns the
entry with hit counter 1, refreshed last-accessed time and unchanged expiry;
reading it after expiry (time 5000 > 3600) returns absent even though the
validity flag is still true. -/
theorem spec_c7_cache_expiry_witness :
    (∃ res : CacheGetResult,
      get_cached_recommendations [c7Entry] 10 "u1" "rooms" = .ok res ∧
      ∃ e2, res.entry = some e2 ∧ e2.hitCount = 1 ∧ e2.lastAccessed = 10 ∧
        e2.expiresAt = 3600) ∧
    (∃ res : CacheGetResult,
      get_cached_recommendations [c7Entry] 5000 "u1" "rooms" = .ok res ∧
      res.entry = none ∧ c7Entry.isValid = true) := by
  constructor
  · obtain ⟨res, hok, hiff, hfields, _⟩ :=
      spec_c7_cache_expiry [c7Entry] 10 "u1" "rooms" c7Entry (by decide)
    have hsome : res.entry.isSome = true := hiff.mpr (by decide)
    obtain ⟨e2, he2⟩ := Option.isSome_iff_exists.mp hsome
    obtain ⟨h1, h2, h3, -, -, -⟩ := hfields e2 he2
    refine ⟨res, hok, e2, he2, ?_, h2, ?_⟩
    · rw [h1]; decide
    · rw [h3]; decide
  · obtain ⟨res, hok, hiff, -, -⟩ :=
      spec_c7_cache_expiry [c7Entry] 5000 "u1" "rooms" c7Entry (by decide)
    have hnone : ¬ res.entry.isSome = true := by
      rw [hiff]; decide
    exact ⟨res, hok, Option.not_isSome_iff_eq_none.mp hnone, by decide⟩

/-- A `{"min": ..., "max": ...}` range with both keys present, as
`get_or_create_preferences` writes it. -/
structure RangeQ where
  min : ℚ
  max : ℚ
deriving DecidableEq

/-- A `user_preferences` row with the fields the service writes. -/
structure UserPrefsRecord where
  userId : String
  genrePreferences : List String
  tempoRange : RangeQ
  energyRange : RangeQ
  discoveryMode : String
  confidenceScore : ℚ
  interactionCount : ℕ
  learningEnabled : Bool
deriving DecidableEq

/-- The default record `get_or_create_preferences` creates for a new user
(lines 160-169). -/
def default_preferences (user_id : String) : UserPrefsRecord :=
  { userId := user_id, genrePreferences := [],
    tempoRange := { min := 60, max := 180 },
    energyRange := { min := 0, max := 1 },
    discoveryMode := "balanced", confidenceScore := 0,
    interactionCount := 0, learningEnabled := true }

/-- Embedding of `UserPreferencesService.get_or_create_preferences` (lines
148-172): `scalar_one_or_none` on the user's row; absent creates and adds
the default record, present returns the stored one unchanged. -/
def get_or_create_preferences (state : List UserPrefsRecord)
    (user_id : String) :
    Except String (UserPrefsRecord × List UserPrefsRecord) :=
  match state.filter (fun p => p.userId = user_id) with
  | [] => .ok (default_preferences user_id,
      state ++ [default_preferences user_id])
  | [p] => .ok (p, state)
  | _ => .error "MultipleResultsFound"

/-- C8: for a brand-new user id the get-or-create operation returns the
default record — empty genre list, tempo range [60,180], energy range
[0,1], discovery mode "balanced", confidence score 0 — and a second call
for the same user id returns that same record without creating another. -/
theorem spec_c8_preference_defaults (state : List UserPrefsRecord)
    (user_id : String)
    (hnew : state.filter (fun p => p.userId = user_id) = []) :
    get_or_create_preferences state user_id
      = .ok (default_preferences user_id,
          state ++ [default_preferences user_id]) ∧
    (default_preferences user_id).genrePreferences = [] ∧
    (default_preferences user_id).tempoRange = { min := 60, max := 180 } ∧
    (default_preferences user_id).energyRange = { min := 0, max := 1 } ∧
    (default_preferences user_id).discoveryMode = "balanced" ∧
    (default_preferences user_id).confidenceScore = 0 ∧
    get_or_create_preferences (state ++ [default_preferences user_id])
        user_id
      = .ok (default_preferences user_id,
          state ++ [default_preferences user_id]) := by
  refine ⟨?_, rfl, rfl, rfl, rfl, rfl, ?_⟩
  · unfold get_or_create_preferences
    rw [hnew]
  · unfold get_or_create_preferences
    have hfilter : (state ++ [default_preferences user_id]).filter
        (fun p => decide (p.userId = user_id))
        = [default_preferences user_id] := by
      rw [List.filter_append, hnew, List.nil_append, List.filter_cons,
        if_pos (by exact decide_eq_true rfl), List.filter_nil]
    rw [hfilter]

/-- Witness for C8: a first call on the empty store creates and returns the
default record for "alice" and a second call returns the same record with
the store unchanged. -/
theorem spec_c8_preference_defaults_witness :
    get_or_create_preferences [] "alice"
      = .ok (default_preferences "alice", [default_preferences "alice"]) ∧
    get_or_create_preferences [default_preferences "alice"] "alice"
      = .ok (default_preferences "alice", [default_preferences "alice"]) := by
  have h := spec_c8_preference_defaults [] "alice" rfl
  exact ⟨h.1, by simpa using h.2.2.2.2.2.2⟩

end SynxSphere
